import Mathlib

/-!
Shallow embedding of `src/main.c` of waybyte/example-uart.

The two UART tasks are modelled as functions from an environment trace
(the results that the system calls `open`, `read`, `select`, `write`
would return, supplied one loop iteration at a time) to the list of
observable events the task performs, together with a flag saying whether
the task function is still inside its loop (`true`) or has returned
(`false`).  An exhausted environment list means "trace so far, the task
is still blocked in its loop".

The URC callback is modelled as a pure function from the event code and
parameter (plus a memory oracle for the pointer cast in the
incoming-call branch) to `Option (List String)`: `some logs` is a normal
return emitting those log lines, `none` is an invalid pointer
dereference.
-/

/-- Serial device path of UART1 (the `#else` branch of the `SOC_RDA8910`
conditional in `main.c`). -/
def PORT1 : String := "/dev/ttyS1"

/-- Serial device path of UART2 (the `#else` branch of the `SOC_RDA8910`
conditional in `main.c`). -/
def PORT2 : String := "/dev/ttyS2"

/-- Observable actions a task performs, in order. -/
inductive Ev where
  /-- `open(path, O_RDWR)` returning `ret`. -/
  | openPort (path : String) (ret : Int)
  /-- `tcgetattr`/`cfsetspeed`/`tcsetattr` configuring the baud rate. -/
  | configBaud (rate : Nat)
  /-- a `printf`/`debug` log line. -/
  | log (msg : String)
  /-- `read(fd, &ch, 1)` returning `ret`; `b` is the byte placed in `ch`. -/
  | read1 (ret : Int) (b : Nat)
  /-- `read(fd, rdbuf, count)` returning `ret`; `data` is what was placed
  in `rdbuf`. -/
  | readBuf (count : Nat) (ret : Int) (data : List Nat)
  /-- `write(fd, buf, n)` of the given bytes. -/
  | write (data : List Nat)
  /-- `write(fd, s, strlen(s))` of a string constant. -/
  | writeStr (s : String)
  /-- `select(fd + 1, &set, NULL, NULL, &timeout)` returning `ret`. -/
  | select (ret : Int)
  /-- `close(fd)`. -/
  | closeFd
deriving DecidableEq

/-- Environment for one iteration of the UART1 echo loop: the result of
the `read` call (return value, byte stored in `ch`, `errno` on failure)
and the result the unchecked `write` call would return. -/
structure R1 where
  readRet : Int
  byte : Nat
  errno : Nat
  writeRet : Int
deriving DecidableEq

/-- The `while (1)` echo loop of `uart1_echo_task` (main.c lines
142-155): read one byte; on `ret < 0` log the errno and break;
otherwise write the byte back (return value unchecked) and loop. -/
def uart1_loop : List R1 → List Ev × Bool
  | [] => ([], true)
  | r :: rs =>
    if r.readRet < 0 then
      ([Ev.read1 r.readRet r.byte,
        Ev.log ("UART1: fail to read from uart: " ++ toString r.errno ++ "\n")],
       false)
    else
      let p := uart1_loop rs
      (Ev.read1 r.readRet r.byte :: Ev.write [r.byte] :: p.1, p.2)

/-- `uart1_echo_task` (main.c lines 125-158): open `PORT1`; on failure
log and return; otherwise set 9600 baud, log, run the echo loop, and
close the fd when the loop breaks. -/
def uart1_echo_task (openRet : Int) (openErrno : Nat) (reads : List R1) :
    List Ev × Bool :=
  if openRet < 0 then
    ([Ev.openPort PORT1 openRet,
      Ev.log ("UART1: Error opening " ++ PORT1 ++ ", err " ++ toString openErrno ++ "\n")],
     false)
  else
    let p := uart1_loop reads
    (Ev.openPort PORT1 openRet :: Ev.configBaud 9600 ::
       Ev.log ("UART1: " ++ PORT1 ++ " open @ 9600\n") ::
       (p.1 ++ if p.2 then [] else [Ev.closeFd]),
     p.2)

/-- The fixed idle-notice string of `uart2_echo_task`. -/
def idleMsg : String := "\r\nUART2: No data for 5 sec\r\n"

/-- Environment for one iteration of the UART2 loop: the `select`
result, and (when data is reported) the `read` result with the bytes it
placed in `rdbuf`; `readErrno`/`selErrno` are the `errno` values on the
respective failures; the two `writeRet` fields are what the unchecked
`write` calls would return. -/
structure Cycle2 where
  selRet : Int
  readRet : Int
  bytes : List Nat
  readErrno : Nat
  selErrno : Nat
  writeRet : Int
  idleWriteRet : Int
deriving DecidableEq

/-- One iteration of the `while (1)` loop of `uart2_echo_task` (main.c
lines 177-208): 5 s `select`; if `ret > 0` read up to 128 bytes and on
success write back exactly the bytes read; if `ret == -1` log the errno
and break; otherwise (timeout) write the idle notice to the uart and
print it, then loop. -/
def uart2_cycle (c : Cycle2) : List Ev × Bool :=
  if c.selRet > 0 then
    if c.readRet < 0 then
      ([Ev.select c.selRet, Ev.readBuf 128 c.readRet c.bytes,
        Ev.log ("UART2: fail to read from uart: " ++ toString c.readErrno ++ "\n")],
       false)
    else
      ([Ev.select c.selRet, Ev.readBuf 128 c.readRet c.bytes,
        Ev.write (c.bytes.take c.readRet.toNat)],
       true)
  else if c.selRet = -1 then
    ([Ev.select c.selRet,
      Ev.log ("UART2: Select error: " ++ toString c.selErrno ++ "\n")],
     false)
  else
    ([Ev.select c.selRet, Ev.writeStr idleMsg, Ev.log idleMsg], true)

/-- The `while (1)` loop of `uart2_echo_task`, iterated over the
environment list; stops early when an iteration breaks. -/
def uart2_loop : List Cycle2 → List Ev × Bool
  | [] => ([], true)
  | c :: cs =>
    let p := uart2_cycle c
    if p.2 then
      let q := uart2_loop cs
      (p.1 ++ q.1, q.2)
    else
      p

/-- `uart2_echo_task` (main.c lines 165-209): open `PORT2`; on failure
log and return; otherwise log and run the select/echo loop.  Note: the
function ends without any `close(fd)`. -/
def uart2_echo_task (openRet : Int) (openErrno : Nat) (cs : List Cycle2) :
    List Ev × Bool :=
  if openRet < 0 then
    ([Ev.openPort PORT2 openRet,
      Ev.log ("UART2: Error opening " ++ PORT2 ++ ", err " ++ toString openErrno ++ "\n")],
     false)
  else
    let p := uart2_loop cs
    (Ev.openPort PORT2 openRet ::
       Ev.log ("UART2: " ++ PORT2 ++ " open @ 115200\n") :: p.1,
     p.2)

/-- The bytes a trace writes to the uart via buffer writes, in order. -/
def writtenBytes (tr : List Ev) : List Nat :=
  tr.flatMap fun e =>
    match e with
    | Ev.write d => d
    | _ => []

/-- The bytes a trace successfully reads one at a time, in order. -/
def readBytes1 (tr : List Ev) : List Nat :=
  tr.flatMap fun e =>
    match e with
    | Ev.read1 ret b => if 0 < ret then [b] else []
    | _ => []

/-!
### URC callback

Modelled from the spec: the numeric values of the `URC_*`, `SYS_STATE_*`,
`SIM_STAT_*` and `CALL_STATE_*` constants come from the vendor headers
`ril.h`/`lib.h`, which are not part of this repository; only their
pairwise distinctness (within each family) is relied upon, so
representative distinct values are used here.
-/

def URC_SYS_INIT_STATE_IND : Nat := 1
def URC_SIM_CARD_STATE_IND : Nat := 2
def URC_GSM_NW_STATE_IND : Nat := 3
def URC_GPRS_NW_STATE_IND : Nat := 4
def URC_CFUN_STATE_IND : Nat := 5
def URC_COMING_CALL_IND : Nat := 6
def URC_CALL_STATE_IND : Nat := 7
def URC_NEW_SMS_IND : Nat := 8
def URC_MODULE_VOLTAGE_IND : Nat := 9
def URC_ALARM_RING_IND : Nat := 10
def URC_FILE_DOWNLOAD_STATUS : Nat := 11
def URC_FOTA_STARTED : Nat := 12
def URC_FOTA_FINISHED : Nat := 13
def URC_FOTA_FAILED : Nat := 14
def URC_STKPCI_RSP_IND : Nat := 15

def SYS_STATE_SMSOK : Nat := 3

def SIM_STAT_NOT_INSERTED : Nat := 0
def SIM_STAT_READY : Nat := 1
def SIM_STAT_PIN_REQ : Nat := 2
def SIM_STAT_PUK_REQ : Nat := 3
def SIM_STAT_NOT_READY : Nat := 4

def CALL_STATE_BUSY : Nat := 0
def CALL_STATE_NO_ANSWER : Nat := 1
def CALL_STATE_NO_CARRIER : Nat := 2
def CALL_STATE_NO_DIALTONE : Nat := 3

/-- The event codes `urc_callback` has a `case` label for. -/
def handledCodes : List Nat :=
  [URC_SYS_INIT_STATE_IND, URC_SIM_CARD_STATE_IND, URC_GSM_NW_STATE_IND,
   URC_GPRS_NW_STATE_IND, URC_CFUN_STATE_IND, URC_COMING_CALL_IND,
   URC_CALL_STATE_IND, URC_NEW_SMS_IND, URC_MODULE_VOLTAGE_IND,
   URC_ALARM_RING_IND, URC_FILE_DOWNLOAD_STATUS, URC_FOTA_STARTED,
   URC_FOTA_FINISHED, URC_FOTA_FAILED, URC_STKPCI_RSP_IND]

/-- Modelled from the spec: `struct ril_callinfo_t` (vendor header
`ril.h`, not in this repository); only its `number` field is used by
`main.c`. -/
structure CallInfo where
  number : String

/-- The inner `switch (param2)` of the `URC_SIM_CARD_STATE_IND` case
(main.c lines 47-65): the log line each parameter value produces. -/
def simStateLog (param2 : Nat) : String :=
  if param2 = SIM_STAT_NOT_INSERTED then "SYSTEM: SIM card not inserted!\n"
  else if param2 = SIM_STAT_READY then "SYSTEM: SIM card Ready!\n"
  else if param2 = SIM_STAT_PIN_REQ then "SYSTEM: SIM PIN required!\n"
  else if param2 = SIM_STAT_PUK_REQ then "SYSTEM: SIM PUK required!\n"
  else if param2 = SIM_STAT_NOT_READY then "SYSTEM: SIM card not recognized!\n"
  else "SYSTEM: SIM ERROR: " ++ toString param2 ++ "\n"

/-- The inner `switch (param2)` of the `URC_CALL_STATE_IND` case
(main.c lines 79-94): the log lines each parameter value produces
(the `default` case emits none). -/
def callStateLog (param2 : Nat) : List String :=
  if param2 = CALL_STATE_BUSY then ["The number you dialed is busy now\n"]
  else if param2 = CALL_STATE_NO_ANSWER then ["The number you dialed has no answer\n"]
  else if param2 = CALL_STATE_NO_CARRIER then ["The number you dialed cannot reach\n"]
  else if param2 = CALL_STATE_NO_DIALTONE then ["No Dial tone\n"]
  else []

/-- `urc_callback` (main.c lines 38-118).  `mem` is the memory oracle
for the cast `(struct ril_callinfo_t *)param2` in the
`URC_COMING_CALL_IND` case: `mem a = some info` means a valid call-info
structure lives at address `a`.  The result is the list of log lines
emitted, or `none` when the callback dereferences an invalid pointer. -/
def urc_callback (mem : Nat → Option CallInfo) (param1 param2 : Nat) :
    Option (List String) :=
  if param1 = URC_SYS_INIT_STATE_IND then
    if param2 = SYS_STATE_SMSOK then some [] else some []
  else if param1 = URC_SIM_CARD_STATE_IND then
    some [simStateLog param2]
  else if param1 = URC_GSM_NW_STATE_IND then
    some ["SYSTEM: GSM NW State: " ++ toString param2 ++ "\n"]
  else if param1 = URC_GPRS_NW_STATE_IND then
    some []
  else if param1 = URC_CFUN_STATE_IND then
    some []
  else if param1 = URC_COMING_CALL_IND then
    match mem param2 with
    | some info => some ["Incoming voice call from: " ++ info.number ++ "\n"]
    | none => none
  else if param1 = URC_CALL_STATE_IND then
    some (callStateLog param2)
  else if param1 = URC_NEW_SMS_IND then
    some ["SMS: New SMS (" ++ toString param2 ++ ")\n"]
  else if param1 = URC_MODULE_VOLTAGE_IND then
    some ["VBatt Voltage: " ++ toString param2 ++ "\n"]
  else if param1 = URC_ALARM_RING_IND then
    some []
  else if param1 = URC_FILE_DOWNLOAD_STATUS then
    some []
  else if param1 = URC_FOTA_STARTED then
    some []
  else if param1 = URC_FOTA_FINISHED then
    some []
  else if param1 = URC_FOTA_FAILED then
    some []
  else if param1 = URC_STKPCI_RSP_IND then
    some []
  else
    some []

/-- The five SIM-status parameter values with a dedicated `case` label. -/
def simFive : List Nat :=
  [SIM_STAT_NOT_INSERTED, SIM_STAT_READY, SIM_STAT_PIN_REQ,
   SIM_STAT_PUK_REQ, SIM_STAT_NOT_READY]

/-- Projection of a UART1 iteration environment onto everything except
the (unchecked) write result. -/
def projR1 (r : R1) : Int × Nat × Nat :=
  (r.readRet, r.byte, r.errno)

/-- Projection of a UART2 cycle environment onto everything except the
(unchecked) write results. -/
def projCycle2 (c : Cycle2) : Int × Int × List Nat × Nat × Nat :=
  (c.selRet, c.readRet, c.bytes, c.readErrno, c.selErrno)

/-- Concrete three-byte input used to instantiate the fixed-rate echo
theorem. -/
def sampleReads : List R1 := [⟨1, 65, 0, 1⟩, ⟨1, 66, 0, 1⟩, ⟨1, 67, 0, 1⟩]

/-- A UART2 cycle in which `select` returns the out-of-convention
negative value `-2`. -/
def selNeg2Cycle : Cycle2 := ⟨-2, 0, [], 0, 0, 0, 0⟩

/-- A UART2 environment whose single cycle reports data and then fails
the read, making the task exit. -/
def uart2FailRun : List Cycle2 := [⟨1, -1, [], 9, 0, 0, 0⟩]

/- ======================  theorems  ====================== -/

theorem uart1_loop_all_ok (reads : List R1) (h : ∀ r ∈ reads, r.readRet = 1) :
    uart1_loop reads =
      (reads.flatMap (fun r => [Ev.read1 1 r.byte, Ev.write [r.byte]]), true) := by
  induction reads with
  | nil => simp [uart1_loop]
  | cons r rs ih =>
    have hr : r.readRet = 1 := h r (List.mem_cons_self _ _)
    have hrest := ih (fun x hx => h x (List.mem_cons_of_mem _ hx))
    simp [uart1_loop, hr, hrest]

theorem writtenBytes_interleave (reads : List R1) :
    writtenBytes (reads.flatMap fun r => [Ev.read1 1 r.byte, Ev.write [r.byte]]) =
      reads.map R1.byte := by
  induction reads with
  | nil => rfl
  | cons r rs ih => simp [writtenBytes] at ih ⊢; exact ih

theorem readBytes1_interleave (reads : List R1) :
    readBytes1 (reads.flatMap fun r => [Ev.read1 1 r.byte, Ev.write [r.byte]]) =
      reads.map R1.byte := by
  induction reads with
  | nil => rfl
  | cons r rs ih => simp [readBytes1] at ih ⊢; exact ih

/-- C1: if every read of the UART1 echo loop returns exactly one byte,
the loop's trace is the strict interleaving read₁, write₁, read₂,
write₂, …: each byte is written back immediately after it is read and
before the next read begins, so the written bytes equal the read bytes
in order, and the loop never terminates on its own. -/
theorem uart1_fixed_rate_echo (reads : List R1)
    (h : ∀ r ∈ reads, r.readRet = 1) :
    uart1_loop reads =
      (reads.flatMap (fun r => [Ev.read1 1 r.byte, Ev.write [r.byte]]), true) ∧
    writtenBytes (uart1_loop reads).1 = reads.map R1.byte ∧
    readBytes1 (uart1_loop reads).1 = reads.map R1.byte := by
  have h1 := uart1_loop_all_ok reads h
  refine ⟨h1, ?_, ?_⟩ <;> rw [h1]
  · exact writtenBytes_interleave reads
  · exact readBytes1_interleave reads

/-- Witness for C1 on the concrete three-byte input `A`, `B`, `C`. -/
theorem uart1_fixed_rate_echo_witness :
    (∀ r ∈ sampleReads, r.readRet = 1) ∧
    (uart1_loop sampleReads =
       (sampleReads.flatMap (fun r => [Ev.read1 1 r.byte, Ev.write [r.byte]]), true) ∧
     writtenBytes (uart1_loop sampleReads).1 = sampleReads.map R1.byte ∧
     readBytes1 (uart1_loop sampleReads).1 = sampleReads.map R1.byte) :=
  ⟨by decide, uart1_fixed_rate_echo sampleReads (by decide)⟩

/-- C2: in a UART2 loop cycle where `select` reports data (`ret > 0`)
and the read of up to 128 bytes succeeds returning the bytes placed in
the buffer, the cycle performs exactly one read of up to capacity 128,
writes back exactly those bytes verbatim and in order, continues to the
next cycle, and neither writes nor logs the idle notice. -/
theorem uart2_data_cycle_echo (c : Cycle2) (hsel : 0 < c.selRet)
    (hread : 0 ≤ c.readRet) (hlen : c.bytes.length = c.readRet.toNat)
    (hcap : c.readRet ≤ 128) :
    uart2_cycle c =
      ([Ev.select c.selRet, Ev.readBuf 128 c.readRet c.bytes, Ev.write c.bytes],
       true) ∧
    Ev.writeStr idleMsg ∉ (uart2_cycle c).1 ∧
    Ev.log idleMsg ∉ (uart2_cycle c).1 ∧
    c.bytes.length ≤ 128 := by
  have htake : c.bytes.take c.readRet.toNat = c.bytes := by
    rw [← hlen]; exact List.take_length _
  have hmain : uart2_cycle c =
      ([Ev.select c.selRet, Ev.readBuf 128 c.readRet c.bytes, Ev.write c.bytes],
       true) := by
    simp [uart2_cycle, hsel, not_lt_of_le hread, htake]
  refine ⟨hmain, ?_, ?_, ?_⟩
  · rw [hmain]; simp
  · rw [hmain]; simp
  · rw [hlen]; omega

/-- Witness for C2 on a cycle that reads the two bytes `h`, `i`. -/
theorem uart2_data_cycle_echo_witness :
    (0 < (2:Int) ∧ 0 ≤ (2:Int) ∧
       ([104, 105] : List Nat).length = (2:Int).toNat ∧ (2:Int) ≤ 128) ∧
    (uart2_cycle ⟨2, 2, [104, 105], 0, 0, 0, 0⟩ =
       ([Ev.select 2, Ev.readBuf 128 2 [104, 105], Ev.write [104, 105]], true) ∧
     Ev.writeStr idleMsg ∉ (uart2_cycle ⟨2, 2, [104, 105], 0, 0, 0, 0⟩).1 ∧
     Ev.log idleMsg ∉ (uart2_cycle ⟨2, 2, [104, 105], 0, 0, 0, 0⟩).1 ∧
     ([104, 105] : List Nat).length ≤ 128) :=
  ⟨⟨by decide, by decide, by decide, by decide⟩,
   uart2_data_cycle_echo ⟨2, 2, [104, 105], 0, 0, 0, 0⟩
     (by decide) (by decide) (by decide) (by decide)⟩

/-- C3: in every UART2 loop cycle whose `select` returns 0 (timeout with
no data), the task writes the fixed idle notice to the uart, prints the
same notice, and keeps looping; iterating the loop over any number of
consecutive such cycles yields one idle notice per cycle and the task
never terminates. -/
theorem uart2_idle_cycles (cs : List Cycle2) (h : ∀ c ∈ cs, c.selRet = 0) :
    uart2_loop cs =
      (cs.flatMap (fun _ => [Ev.select 0, Ev.writeStr idleMsg, Ev.log idleMsg]),
       true) := by
  induction cs with
  | nil => simp [uart2_loop]
  | cons c rest ih =>
    have hc : c.selRet = 0 := h c (List.mem_cons_self _ _)
    have hrest := ih (fun x hx => h x (List.mem_cons_of_mem _ hx))
    simp [uart2_loop, uart2_cycle, hc, hrest]

/-- Witness for C3: three consecutive timeout cycles produce three idle
notices and leave the loop running. -/
theorem uart2_idle_cycles_witness :
    (∀ c ∈ (List.replicate 3 (⟨0, 0, [], 0, 0, 0, 0⟩ : Cycle2)), c.selRet = 0) ∧
    uart2_loop (List.replicate 3 (⟨0, 0, [], 0, 0, 0, 0⟩ : Cycle2)) =
      ((List.replicate 3 (⟨0, 0, [], 0, 0, 0, 0⟩ : Cycle2)).flatMap
         (fun _ => [Ev.select 0, Ev.writeStr idleMsg, Ev.log idleMsg]),
       true) :=
  ⟨by decide,
   uart2_idle_cycles (List.replicate 3 ⟨0, 0, [], 0, 0, 0, 0⟩) (by decide)⟩

/-- Counterexample to C4 as stated: `select` returning the negative
value `-2` does not make the task log a diagnostic and terminate;
the code only tests `ret == -1`, so `-2` falls into the timeout branch,
the idle notice is emitted and the loop continues. -/
theorem uart2_select_neg2_not_error :
    selNeg2Cycle.selRet < 0 ∧
    uart2_cycle selNeg2Cycle =
      ([Ev.select (-2), Ev.writeStr idleMsg, Ev.log idleMsg], true) := by
  constructor
  · decide
  · rfl

/-- C4 (amended): when the readiness wait returns exactly `-1` — the
only value the code treats as wait failure — the task logs a `select`
diagnostic carrying the errno and terminates, an outcome distinct from
both the data-ready (`ret > 0`) and timeout branches. -/
theorem uart2_select_error_terminates (c : Cycle2) (h : c.selRet = -1) :
    uart2_cycle c =
      ([Ev.select (-1),
        Ev.log ("UART2: Select error: " ++ toString c.selErrno ++ "\n")],
       false) := by
  simp [uart2_cycle, h]

/-- Witness for the amended C4 at errno 11. -/
theorem uart2_select_error_terminates_witness :
    ((⟨-1, 0, [], 0, 11, 0, 0⟩ : Cycle2).selRet = -1) ∧
    uart2_cycle ⟨-1, 0, [], 0, 11, 0, 0⟩ =
      ([Ev.select (-1), Ev.log ("UART2: Select error: " ++ toString (11:Nat) ++ "\n")],
       false) :=
  ⟨by decide, uart2_select_error_terminates ⟨-1, 0, [], 0, 11, 0, 0⟩ (by decide)⟩

theorem closeFd_not_in_uart2_cycle (c : Cycle2) :
    Ev.closeFd ∉ (uart2_cycle c).1 := by
  unfold uart2_cycle
  split_ifs <;> simp

theorem closeFd_not_in_uart2_loop (cs : List Cycle2) :
    Ev.closeFd ∉ (uart2_loop cs).1 := by
  induction cs with
  | nil => simp [uart2_loop]
  | cons c rest ih =>
    unfold uart2_loop
    cases hc : (uart2_cycle c).2 <;> simp_all [closeFd_not_in_uart2_cycle c]

/-- Counterexample to C5 as stated: a UART2 run whose open succeeded
(handle 3) and whose task exits via a read failure never performs a
`close` — `uart2_echo_task` has no `close(fd)` on any path, so the
handle is left open on task exit. -/
theorem uart2_exit_leaves_handle_open :
    (0:Int) ≤ 3 ∧
    (uart2_echo_task 3 0 uart2FailRun).2 = false ∧
    Ev.closeFd ∉ (uart2_echo_task 3 0 uart2FailRun).1 := by
  refine ⟨by decide, by decide, ?_⟩
  decide

/-- C5 (amended): the fixed-rate channel (UART1) closes its handle on
every task exit that follows a successful open, but the idle-timeout
channel (UART2) never closes its handle: no event of any UART2 run,
exiting or not, is a `close`. -/
theorem handle_release_on_exit :
    (∀ (openRet : Int) (e : Nat) (reads : List R1), 0 ≤ openRet →
       (uart1_echo_task openRet e reads).2 = false →
       Ev.closeFd ∈ (uart1_echo_task openRet e reads).1) ∧
    (∀ (openRet : Int) (e : Nat) (cs : List Cycle2),
       Ev.closeFd ∉ (uart2_echo_task openRet e cs).1) := by
  constructor
  · intro openRet e reads hopen hexit
    rw [uart1_echo_task, if_neg (by omega)] at hexit ⊢
    simp only at hexit
    simp [hexit]
  · intro openRet e cs
    unfold uart2_echo_task
    split_ifs <;> simp [closeFd_not_in_uart2_loop cs]

/-- Witness for the amended C5: a UART1 run that exits on a read error
does close its handle, and an idle UART2 run performs no close. -/
theorem handle_release_on_exit_witness :
    ((0:Int) ≤ 5 ∧ (uart1_echo_task 5 0 [⟨-1, 0, 7, 0⟩]).2 = false ∧
       Ev.closeFd ∈ (uart1_echo_task 5 0 [⟨-1, 0, 7, 0⟩]).1) ∧
    Ev.closeFd ∉ (uart2_echo_task 5 0 [⟨0, 0, [], 0, 0, 0, 0⟩]).1 :=
  ⟨⟨by decide, by decide,
     handle_release_on_exit.1 5 0 [⟨-1, 0, 7, 0⟩] (by decide) (by decide)⟩,
   handle_release_on_exit.2 5 0 [⟨0, 0, [], 0, 0, 0, 0⟩]⟩

/-- C8: on either channel, when `open` returns a negative handle the
task's whole trace is the open call followed by exactly one diagnostic
naming the device path and the errno, and the task terminates at once —
no retry and no read, write, or close ever happens. -/
theorem open_failure_terminates :
    (∀ (openRet : Int) (e : Nat) (reads : List R1), openRet < 0 →
       uart1_echo_task openRet e reads =
         ([Ev.openPort PORT1 openRet,
           Ev.log ("UART1: Error opening " ++ PORT1 ++ ", err " ++ toString e ++ "\n")],
          false)) ∧
    (∀ (openRet : Int) (e : Nat) (cs : List Cycle2), openRet < 0 →
       uart2_echo_task openRet e cs =
         ([Ev.openPort PORT2 openRet,
           Ev.log ("UART2: Error opening " ++ PORT2 ++ ", err " ++ toString e ++ "\n")],
          false)) := by
  constructor
  · intro openRet e reads h
    simp [uart1_echo_task, h]
  · intro openRet e cs h
    simp [uart2_echo_task, h]

/-- Witness for C8 with failing handle `-1` and errno 2 on both
channels. -/
theorem open_failure_terminates_witness :
    ((-1:Int) < 0 ∧
       uart1_echo_task (-1) 2 [] =
         ([Ev.openPort PORT1 (-1),
           Ev.log ("UART1: Error opening " ++ PORT1 ++ ", err " ++ toString (2:Nat) ++ "\n")],
          false)) ∧
    uart2_echo_task (-1) 2 [] =
      ([Ev.openPort PORT2 (-1),
        Ev.log ("UART2: Error opening " ++ PORT2 ++ ", err " ++ toString (2:Nat) ++ "\n")],
       false) :=
  ⟨⟨by decide, open_failure_terminates.1 (-1) 2 [] (by decide)⟩,
   open_failure_terminates.2 (-1) 2 [] (by decide)⟩

/-- C9: neither loop ever examines a write result: two environments that
agree on everything except the values returned by the `write` calls
drive each loop through the identical trace with the identical
termination status, so a write failure can never make a task log or
stop. -/
theorem write_results_ignored :
    (∀ rs rs' : List R1, rs.map projR1 = rs'.map projR1 →
       uart1_loop rs = uart1_loop rs') ∧
    (∀ cs cs' : List Cycle2, cs.map projCycle2 = cs'.map projCycle2 →
       uart2_loop cs = uart2_loop cs') := by
  constructor
  · intro rs
    induction rs with
    | nil =>
      intro rs' h
      rw [List.map_eq_nil_iff.mp h.symm]
    | cons r rest ih =>
      intro rs' h
      cases rs' with
      | nil => simp at h
      | cons r' rest' =>
        simp only [List.map_cons, List.cons.injEq, projR1, Prod.mk.injEq] at h
        obtain ⟨⟨h1, h2, h3⟩, hm⟩ := h
        rw [uart1_loop, uart1_loop, h1, h2, h3, ih rest' hm]
  · intro cs
    induction cs with
    | nil =>
      intro cs' h
      rw [List.map_eq_nil_iff.mp h.symm]
    | cons c rest ih =>
      intro cs' h
      cases cs' with
      | nil => simp at h
      | cons c' rest' =>
        simp only [List.map_cons, List.cons.injEq, projCycle2, Prod.mk.injEq] at h
        obtain ⟨⟨h1, h2, h3, h4, h5⟩, hm⟩ := h
        rw [uart2_loop, uart2_loop, ih rest' hm]
        unfold uart2_cycle
        rw [h1, h2, h3, h4, h5]

/-- Witness for C9: the same inputs with write results 0 versus 99
produce identical traces on both loops. -/
theorem write_results_ignored_witness :
    (([⟨1, 65, 0, 0⟩] : List R1).map projR1 =
       ([⟨1, 65, 0, 99⟩] : List R1).map projR1 ∧
     uart1_loop [⟨1, 65, 0, 0⟩] = uart1_loop [⟨1, 65, 0, 99⟩]) ∧
    (([⟨0, 0, [], 0, 0, 0, 0⟩] : List Cycle2).map projCycle2 =
       ([⟨0, 0, [], 0, 0, 99, 99⟩] : List Cycle2).map projCycle2 ∧
     uart2_loop [⟨0, 0, [], 0, 0, 0, 0⟩] = uart2_loop [⟨0, 0, [], 0, 0, 99, 99⟩]) :=
  ⟨⟨by decide, write_results_ignored.1 [⟨1, 65, 0, 0⟩] [⟨1, 65, 0, 99⟩] (by decide)⟩,
   ⟨by decide,
    write_results_ignored.2 [⟨0, 0, [], 0, 0, 0, 0⟩] [⟨0, 0, [], 0, 0, 99, 99⟩]
      (by decide)⟩⟩

theorem urc_not_handled (mem : Nat → Option CallInfo) (c p : Nat)
    (h : c ∉ handledCodes) : urc_callback mem c p = some [] := by
  simp only [handledCodes, List.mem_cons, List.not_mem_nil, or_false,
    not_or] at h
  obtain ⟨n1, n2, n3, n4, n5, n6, n7, n8, n9, n10, n11, n12, n13, n14, n15⟩ := h
  unfold urc_callback
  rw [if_neg n1, if_neg n2, if_neg n3, if_neg n4, if_neg n5, if_neg n6,
    if_neg n7, if_neg n8, if_neg n9, if_neg n10, if_neg n11, if_neg n12,
    if_neg n13, if_neg n14, if_neg n15]

set_option maxHeartbeats 1000000 in
theorem urc_reserved_noop (mem : Nat → Option CallInfo) (p : Nat) :
    urc_callback mem URC_GPRS_NW_STATE_IND p = some [] ∧
    urc_callback mem URC_CFUN_STATE_IND p = some [] ∧
    urc_callback mem URC_ALARM_RING_IND p = some [] ∧
    urc_callback mem URC_FILE_DOWNLOAD_STATUS p = some [] ∧
    urc_callback mem URC_FOTA_STARTED p = some [] ∧
    urc_callback mem URC_FOTA_FINISHED p = some [] ∧
    urc_callback mem URC_FOTA_FAILED p = some [] ∧
    urc_callback mem URC_STKPCI_RSP_IND p = some [] := by
  refine ⟨?_, ?_, ?_, ?_, ?_, ?_, ?_, ?_⟩ <;>
    simp [urc_callback, URC_SYS_INIT_STATE_IND, URC_SIM_CARD_STATE_IND,
      URC_GSM_NW_STATE_IND, URC_GPRS_NW_STATE_IND, URC_CFUN_STATE_IND,
      URC_COMING_CALL_IND, URC_CALL_STATE_IND, URC_NEW_SMS_IND,
      URC_MODULE_VOLTAGE_IND, URC_ALARM_RING_IND, URC_FILE_DOWNLOAD_STATUS,
      URC_FOTA_STARTED, URC_FOTA_FINISHED, URC_FOTA_FAILED,
      URC_STKPCI_RSP_IND]

theorem urc_call_state (mem : Nat → Option CallInfo) (p : Nat) :
    urc_callback mem URC_CALL_STATE_IND p = some (callStateLog p) := by
  simp [urc_callback, URC_SYS_INIT_STATE_IND, URC_SIM_CARD_STATE_IND,
    URC_GSM_NW_STATE_IND, URC_GPRS_NW_STATE_IND, URC_CFUN_STATE_IND,
    URC_COMING_CALL_IND, URC_CALL_STATE_IND]

theorem callStateLog_default (p : Nat)
    (h : p ∉ [CALL_STATE_BUSY, CALL_STATE_NO_ANSWER, CALL_STATE_NO_CARRIER,
              CALL_STATE_NO_DIALTONE]) :
    callStateLog p = [] := by
  simp only [List.mem_cons, List.not_mem_nil, or_false, not_or] at h
  obtain ⟨k1, k2, k3, k4⟩ := h
  unfold callStateLog
  rw [if_neg k1, if_neg k2, if_neg k3, if_neg k4]

/-- C6: every event code without a `case` label, every reserved handled
code (GPRS, CFUN, alarm, file download, the three FOTA codes, SIM
toolkit), and every unhandled call-state sub-code makes the classifier
return normally with no log output at all. -/
theorem urc_unknown_is_noop :
    (∀ (mem : Nat → Option CallInfo) (c p : Nat), c ∉ handledCodes →
       urc_callback mem c p = some []) ∧
    (∀ (mem : Nat → Option CallInfo) (p : Nat),
       urc_callback mem URC_GPRS_NW_STATE_IND p = some [] ∧
       urc_callback mem URC_CFUN_STATE_IND p = some [] ∧
       urc_callback mem URC_ALARM_RING_IND p = some [] ∧
       urc_callback mem URC_FILE_DOWNLOAD_STATUS p = some [] ∧
       urc_callback mem URC_FOTA_STARTED p = some [] ∧
       urc_callback mem URC_FOTA_FINISHED p = some [] ∧
       urc_callback mem URC_FOTA_FAILED p = some [] ∧
       urc_callback mem URC_STKPCI_RSP_IND p = some []) ∧
    (∀ (mem : Nat → Option CallInfo) (p : Nat),
       p ∉ [CALL_STATE_BUSY, CALL_STATE_NO_ANSWER, CALL_STATE_NO_CARRIER,
            CALL_STATE_NO_DIALTONE] →
       urc_callback mem URC_CALL_STATE_IND p = some []) := by
  refine ⟨urc_not_handled, urc_reserved_noop, ?_⟩
  intro mem p hp
  rw [urc_call_state, callStateLog_default p hp]

/-- Witness for C6: the unknown code 999 and the unknown call-state
sub-code 42 are both silent no-ops. -/
theorem urc_unknown_is_noop_witness :
    ((999 ∉ handledCodes) ∧ urc_callback (fun _ => none) 999 5 = some []) ∧
    ((42 ∉ [CALL_STATE_BUSY, CALL_STATE_NO_ANSWER, CALL_STATE_NO_CARRIER,
            CALL_STATE_NO_DIALTONE]) ∧
     urc_callback (fun _ => none) URC_CALL_STATE_IND 42 = some []) :=
  ⟨⟨by decide, urc_unknown_is_noop.1 (fun _ => none) 999 5 (by decide)⟩,
   ⟨by decide, urc_unknown_is_noop.2.2 (fun _ => none) 42 (by decide)⟩⟩

/-- C7: the SIM-status event always emits exactly one log line, a total
function of the parameter; the five enumerated parameter values map to
five pairwise-distinct lines, and every other value maps to the line
carrying the raw numeric parameter. -/
theorem urc_sim_status_total :
    (∀ (mem : Nat → Option CallInfo) (p : Nat),
       urc_callback mem URC_SIM_CARD_STATE_IND p = some [simStateLog p]) ∧
    (simFive.map simStateLog).Nodup ∧
    (∀ p : Nat, p ∉ simFive →
       simStateLog p = "SYSTEM: SIM ERROR: " ++ toString p ++ "\n") := by
  refine ⟨?_, ?_, ?_⟩
  · intro mem p
    simp [urc_callback, URC_SYS_INIT_STATE_IND, URC_SIM_CARD_STATE_IND]
  · decide
  · intro p hp
    simp only [simFive, List.mem_cons, List.not_mem_nil, or_false, not_or] at hp
    obtain ⟨h1, h2, h3, h4, h5⟩ := hp
    simp [simStateLog, h1, h2, h3, h4, h5]

/-- Witness for C7: the out-of-range parameter 77 logs the raw value. -/
theorem urc_sim_status_total_witness :
    (77 ∉ simFive) ∧
    simStateLog 77 = "SYSTEM: SIM ERROR: " ++ toString (77:Nat) ++ "\n" :=
  ⟨by decide, urc_sim_status_total.2.2 77 (by decide)⟩

theorem urc_mem_indep (mem mem' : Nat → Option CallInfo) (c p : Nat)
    (hc : c ≠ URC_COMING_CALL_IND) :
    urc_callback mem c p = urc_callback mem' c p := by
  unfold urc_callback
  by_cases h1 : c = URC_SYS_INIT_STATE_IND
  · rw [if_pos h1, if_pos h1]
  rw [if_neg h1, if_neg h1]
  by_cases h2 : c = URC_SIM_CARD_STATE_IND
  · rw [if_pos h2, if_pos h2]
  rw [if_neg h2, if_neg h2]
  by_cases h3 : c = URC_GSM_NW_STATE_IND
  · rw [if_pos h3, if_pos h3]
  rw [if_neg h3, if_neg h3]
  by_cases h4 : c = URC_GPRS_NW_STATE_IND
  · rw [if_pos h4, if_pos h4]
  rw [if_neg h4, if_neg h4]
  by_cases h5 : c = URC_CFUN_STATE_IND
  · rw [if_pos h5, if_pos h5]
  rw [if_neg h5, if_neg h5]
  rw [if_neg hc, if_neg hc]

theorem urc_isSome_of_ne_coming (mem : Nat → Option CallInfo) (c p : Nat)
    (hc : c ≠ URC_COMING_CALL_IND) :
    (urc_callback mem c p).isSome = true := by
  unfold urc_callback
  by_cases h1 : c = URC_SYS_INIT_STATE_IND
  · rw [if_pos h1]
    by_cases hp : p = SYS_STATE_SMSOK
    · rw [if_pos hp]; rfl
    · rw [if_neg hp]; rfl
  rw [if_neg h1]
  by_cases h2 : c = URC_SIM_CARD_STATE_IND
  · rw [if_pos h2]; rfl
  rw [if_neg h2]
  by_cases h3 : c = URC_GSM_NW_STATE_IND
  · rw [if_pos h3]; rfl
  rw [if_neg h3]
  by_cases h4 : c = URC_GPRS_NW_STATE_IND
  · rw [if_pos h4]; rfl
  rw [if_neg h4]
  by_cases h5 : c = URC_CFUN_STATE_IND
  · rw [if_pos h5]; rfl
  rw [if_neg h5]
  rw [if_neg hc]
  by_cases h7 : c = URC_CALL_STATE_IND
  · rw [if_pos h7]; rfl
  rw [if_neg h7]
  by_cases h8 : c = URC_NEW_SMS_IND
  · rw [if_pos h8]; rfl
  rw [if_neg h8]
  by_cases h9 : c = URC_MODULE_VOLTAGE_IND
  · rw [if_pos h9]; rfl
  rw [if_neg h9]
  by_cases h10 : c = URC_ALARM_RING_IND
  · rw [if_pos h10]; rfl
  rw [if_neg h10]
  by_cases h11 : c = URC_FILE_DOWNLOAD_STATUS
  · rw [if_pos h11]; rfl
  rw [if_neg h11]
  by_cases h12 : c = URC_FOTA_STARTED
  · rw [if_pos h12]; rfl
  rw [if_neg h12]
  by_cases h13 : c = URC_FOTA_FINISHED
  · rw [if_pos h13]; rfl
  rw [if_neg h13]
  by_cases h14 : c = URC_FOTA_FAILED
  · rw [if_pos h14]; rfl
  rw [if_neg h14]
  by_cases h15 : c = URC_STKPCI_RSP_IND
  · rw [if_pos h15]; rfl
  rw [if_neg h15]; rfl

theorem urc_coming_call_eval (mem : Nat → Option CallInfo) (p : Nat) :
    urc_callback mem URC_COMING_CALL_IND p =
      match mem p with
      | some info => some ["Incoming voice call from: " ++ info.number ++ "\n"]
      | none => none := by
  simp [urc_callback, URC_SYS_INIT_STATE_IND, URC_SIM_CARD_STATE_IND,
    URC_GSM_NW_STATE_IND, URC_GPRS_NW_STATE_IND, URC_CFUN_STATE_IND,
    URC_COMING_CALL_IND]

/-- C10: the classifier dereferences its parameter only for the
incoming-call code: for every other code the result neither depends on
memory nor fails, while for the incoming-call code the callback fails
exactly when no valid call-info structure lives at the parameter
address, and logs that structure's number field when one does. -/
theorem urc_deref_only_incoming_call :
    (∀ (mem mem' : Nat → Option CallInfo) (c p : Nat),
       c ≠ URC_COMING_CALL_IND →
       urc_callback mem c p = urc_callback mem' c p) ∧
    (∀ (mem : Nat → Option CallInfo) (c p : Nat), c ≠ URC_COMING_CALL_IND →
       (urc_callback mem c p).isSome) ∧
    (∀ p : Nat, urc_callback (fun _ => none) URC_COMING_CALL_IND p = none) ∧
    (∀ (mem : Nat → Option CallInfo) (p : Nat) (info : CallInfo),
       mem p = some info →
       urc_callback mem URC_COMING_CALL_IND p =
         some ["Incoming voice call from: " ++ info.number ++ "\n"]) := by
  refine ⟨urc_mem_indep, urc_isSome_of_ne_coming, ?_, ?_⟩
  · intro p
    rw [urc_coming_call_eval]
  · intro mem p info h
    rw [urc_coming_call_eval, h]

/-- Witness for C10: a voltage event is memory-independent and
succeeds; an incoming call with a valid structure at address 5 logs its
number, while an empty memory makes the same event fail. -/
theorem urc_deref_only_incoming_call_witness :
    ((URC_MODULE_VOLTAGE_IND ≠ URC_COMING_CALL_IND) ∧
     urc_callback (fun _ => none) URC_MODULE_VOLTAGE_IND 3700 =
       urc_callback (fun _ => some ⟨"999"⟩) URC_MODULE_VOLTAGE_IND 3700 ∧
     (urc_callback (fun _ => none) URC_MODULE_VOLTAGE_IND 3700).isSome) ∧
    urc_callback (fun _ => none) URC_COMING_CALL_IND 5 = none ∧
    ((fun a => if a = 5 then some (⟨"12345"⟩ : CallInfo) else none) 5 =
       some ⟨"12345"⟩ ∧
     urc_callback (fun a => if a = 5 then some ⟨"12345"⟩ else none)
         URC_COMING_CALL_IND 5 =
       some ["Incoming voice call from: " ++ ("12345" : String) ++ "\n"]) :=
  ⟨⟨by decide,
    urc_deref_only_incoming_call.1 (fun _ => none) (fun _ => some ⟨"999"⟩)
      URC_MODULE_VOLTAGE_IND 3700 (by decide),
    urc_deref_only_incoming_call.2.1 (fun _ => none) URC_MODULE_VOLTAGE_IND 3700
      (by decide)⟩,
   urc_deref_only_incoming_call.2.2.1 5,
   ⟨rfl,
    urc_deref_only_incoming_call.2.2.2
      (fun a => if a = 5 then some ⟨"12345"⟩ else none) 5 ⟨"12345"⟩ rfl⟩⟩
